import Mathlib

/-!
Verification of the filesystem-analyzer core of `awesome-python-tools.py`
(`FileSystemAnalyzer`, lines 43-129): the directory walk, size and count
aggregation, per-extension grouping and content-hash duplicate grouping
performed by `analyze_directory`.

The embedding models one scan as a fold over the sequence of nodes yielded
by `Path.rglob`.  A `Node` records what the Python code can observe about a
filesystem entry: its path, how `is_file()` / `is_dir()` classify it (both
can be false, e.g. for a socket or a broken symlink, hence the `other`
kind), whether `stat()` succeeds and the size it reports, the path suffix,
and whether `calculate_file_hash` succeeds together with the file content
(the SHA-256 digest is abstracted as the content string itself, an
injective digest model).  `Path.rglob` on a root that is missing or not a
directory yields no entries (pathlib's `_Selector.select_from` returns an
empty iterator when `is_dir` fails on the root), which `visited` reflects.

Python's `defaultdict(list)` mappings (`self.file_types`,
`self.duplicates`) are modelled as insertion-ordered association lists
(`appendAssoc` appends to an existing bucket or creates a new bucket at the
end, exactly like `d[k].append(v)` on a `defaultdict`), and the
`self.stats` counter dict as explicit named fields of `Analyzer`.
-/

namespace FileAnalyzer

/-- Classification of a filesystem node as seen through pathlib:
`is_file()` true, `is_dir()` true, or neither (socket, fifo, broken
symlink, ...).  The two predicates are never both true for one node. -/
inductive NodeKind where
  | file
  | dir
  | other
deriving DecidableEq, Repr

/-- One filesystem node yielded by `self.root_path.rglob('*')`, carrying
everything the scan can observe about it.  `statOk` is whether
`item.stat()` succeeds (otherwise it raises `PermissionError`/`OSError`),
`size` is `st_size` when it does, `suffix` is `item.suffix`, `hashOk` is
whether `calculate_file_hash` can open and read the file, and `content`
stands for the byte content, used as the abstract SHA-256 digest. -/
structure Node where
  path : String
  kind : NodeKind
  statOk : Bool
  size : Nat
  suffix : String
  hashOk : Bool
  content : String
deriving DecidableEq, Repr

/-- The dict `{'path': str(item), 'size': size}` appended to a
`self.file_types` bucket (lines 87-90). -/
structure FileEntry where
  path : String
  size : Nat
deriving DecidableEq, Repr

/-- The mutable state of a `FileSystemAnalyzer` instance:
`self.stats` (a `defaultdict(int)` with keys `total_files`, `total_dirs`,
`errors`, `total_size`), `self.duplicates` (digest to list of paths) and
`self.file_types` (extension to list of entries), lines 46-50. -/
structure Analyzer where
  stats_total_files : Nat
  stats_total_dirs : Nat
  stats_errors : Nat
  stats_total_size : Nat
  duplicates : List (String × List String)
  file_types : List (String × List FileEntry)
deriving DecidableEq, Repr

/-- The state built by `__init__` (lines 46-50): all counters zero, both
mappings empty. -/
def initAnalyzer : Analyzer := ⟨0, 0, 0, 0, [], []⟩

/-- A directory tree to scan: whether the root path is an existing
directory, and the sequence of nodes `rglob('*')` yields when it is. -/
structure FileSystem where
  rootIsDir : Bool
  nodes : List Node
deriving DecidableEq, Repr

/-- `d[k].append(v)` on a `defaultdict(list)` modelled on an
insertion-ordered association list: append to the bucket of `k` if one
exists, otherwise create the bucket `[v]` at the end. -/
def appendAssoc {β : Type} (m : List (String × List β)) (k : String) (v : β) :
    List (String × List β) :=
  match m with
  | [] => [(k, [v])]
  | (k', vs) :: rest =>
    if k = k' then (k', vs ++ [v]) :: rest else (k', vs) :: appendAssoc rest k v

/-- Bucket of key `k` in an association-list mapping; the empty list when
the key is absent. -/
def lookupAssoc {β : Type} (m : List (String × List β)) (k : String) : List β :=
  match m with
  | [] => []
  | (k', vs) :: rest => if k = k' then vs else lookupAssoc rest k

/-- Membership test `file_hash in file_hashes` on the local dict
`file_hashes` of `analyze_directory` (line 95). -/
def hasKey (m : List (String × String)) (k : String) : Bool :=
  m.any (fun p => p.1 == k)

/-- Embedding of `calculate_file_hash` (lines 52-61): streams the file and
returns its SHA-256 hex digest, or `None` on `PermissionError`/`OSError`.
The digest is abstracted as the content string (an injective digest). -/
def calculate_file_hash (n : Node) : Option String :=
  if n.hashOk then some n.content else none

/-- ASCII lowercasing of one character, as `Char.toLower` computes it:
shift an upper-case letter down by 32, leave anything else alone. -/
def lowerChar (c : Char) : Char :=
  if 65 ≤ c.toNat ∧ c.toNat ≤ 90 then Char.ofNat (c.toNat + 32) else c

/-- Lowercasing of a string character by character, modelling Python's
`str.lower()` (structural recursion over the character list, so that
concrete scans evaluate). -/
def lowerStr (s : String) : String := ⟨s.data.map lowerChar⟩

/-- The extension key `item.suffix.lower() or 'no_extension'` (line 86):
the lowercased suffix, or the sentinel when the suffix is empty. -/
def extKey (suffix : String) : String :=
  if lowerStr suffix = "" then "no_extension" else lowerStr suffix

/-- One iteration of the `for item in self.root_path.rglob('*')` loop of
`analyze_directory` (lines 79-105).  The accumulator carries the analyzer
state together with the loop-local variables `total_size` and
`file_hashes`.  A file whose `stat()` raises contributes only
`stats['errors'] += 1`; a readable file adds its size, bumps
`total_files`, is appended to its extension bucket, and, when
`find_duplicates` is set and hashing succeeds, is appended to the
`duplicates` bucket of its digest (first occurrence included, lines
95-99); a directory bumps `total_dirs`; any other node is ignored. -/
def step (find_duplicates : Bool) (acc : Analyzer × Nat × List (String × String))
    (item : Node) : Analyzer × Nat × List (String × String) :=
  let (a, total_size, file_hashes) := acc
  match item.kind with
  | NodeKind.file =>
    if item.statOk then
      let size := item.size
      let total_size := total_size + size
      let a := { a with stats_total_files := a.stats_total_files + 1 }
      let extension := extKey item.suffix
      let a := { a with file_types := appendAssoc a.file_types extension ⟨item.path, size⟩ }
      if find_duplicates then
        match calculate_file_hash item with
        | some file_hash =>
          if hasKey file_hashes file_hash then
            ({ a with duplicates := appendAssoc a.duplicates file_hash item.path },
              total_size, file_hashes)
          else
            ({ a with duplicates := appendAssoc a.duplicates file_hash item.path },
              total_size, file_hashes ++ [(file_hash, item.path)])
        | none => (a, total_size, file_hashes)
      else
        (a, total_size, file_hashes)
    else
      ({ a with stats_errors := a.stats_errors + 1 }, total_size, file_hashes)
  | NodeKind.dir => ({ a with stats_total_dirs := a.stats_total_dirs + 1 }, total_size, file_hashes)
  | NodeKind.other => acc

/-- The sequence of nodes the loop iterates over: `rglob('*')` yields the
tree's nodes when the root is an existing directory and nothing
otherwise. -/
def visited (fs : FileSystem) : List Node :=
  if fs.rootIsDir then fs.nodes else []

/-- Embedding of `analyze_directory` (lines 71-109): folds the loop body
over the visited nodes starting from the instance state `self` with the
local `total_size = 0` and `file_hashes = {}`, then overwrites
`stats['total_size']` with the local total and returns `self.stats`
(the whole resulting instance state stands for the report the caller
sees). -/
def analyze_directory (self : Analyzer) (fs : FileSystem) (find_duplicates : Bool) : Analyzer :=
  let res := (visited fs).foldl (step find_duplicates) (self, 0, [])
  { res.1 with stats_total_size := res.2.1 }

/-- A node that `is_file()` accepts and whose `stat()` succeeds: the files
that get counted and aggregated. -/
def isReadableFile (n : Node) : Bool :=
  match n.kind with
  | NodeKind.file => n.statOk
  | _ => false

/-- A node that `is_file()` accepts but whose `stat()` raises: the entries
counted in `stats['errors']`. -/
def isErrorFile (n : Node) : Bool :=
  match n.kind with
  | NodeKind.file => !n.statOk
  | _ => false

/-- A node that `is_dir()` accepts. -/
def isDirNode (n : Node) : Bool :=
  match n.kind with
  | NodeKind.dir => true
  | _ => false

/-- A readable file that `calculate_file_hash` hashes successfully: the
files that enter duplicate detection. -/
def isHashedFile (n : Node) : Bool :=
  match n.kind with
  | NodeKind.file => n.statOk && n.hashOk
  | _ => false

/-- A node that is a file or a directory, i.e. one that the loop counts in
some counter; `other` nodes fall through both branches. -/
def isCountedNode (n : Node) : Bool :=
  match n.kind with
  | NodeKind.other => false
  | _ => true

/-- Total of the sizes stored across all buckets of a `file_types`
mapping. -/
def bucketSizes (m : List (String × List FileEntry)) : Nat :=
  (m.map (fun p => (p.2.map FileEntry.size).sum)).sum

/-- Concrete tree holding a single readable, hashable file with content
unique in the tree. -/
def fsUnique : FileSystem :=
  ⟨true, [⟨"/r/u.txt", NodeKind.file, true, 1, ".txt", true, "U"⟩]⟩

/-- File `a.txt` of the spec scenario: content "X", one byte. -/
def nodeA : Node := ⟨"/r/a.txt", NodeKind.file, true, 1, ".txt", true, "X"⟩

/-- File `b.txt` of the spec scenario: content "X", one byte. -/
def nodeB : Node := ⟨"/r/b.txt", NodeKind.file, true, 1, ".txt", true, "X"⟩

/-- File `c.txt` of the spec scenario: content "Y", one byte. -/
def nodeC : Node := ⟨"/r/c.txt", NodeKind.file, true, 1, ".txt", true, "Y"⟩

/-- The spec's scenario tree: exactly `a.txt`, `b.txt`, `c.txt`. -/
def fsABC : FileSystem := ⟨true, [nodeA, nodeB, nodeC]⟩

/-- Concrete tree whose only node is neither a file nor a directory
(e.g. a socket or a broken symlink). -/
def fsOther : FileSystem :=
  ⟨true, [⟨"/r/sock", NodeKind.other, false, 0, "", false, ""⟩]⟩

/-- Concrete scan input whose root path is not an existing directory
(the node list records what the tree would hold were the root valid). -/
def fsBadRoot : FileSystem :=
  ⟨false, [⟨"/r/u.txt", NodeKind.file, true, 1, ".txt", true, "U"⟩]⟩

/-- Concrete tree that is an existing but empty directory. -/
def fsEmpty : FileSystem := ⟨true, []⟩

/-- A file entry whose `stat()` raises `PermissionError`. -/
def nodeBad : Node := ⟨"/r/locked.txt", NodeKind.file, false, 5, ".txt", false, ""⟩

/-- A readable file on which `calculate_file_hash` fails (e.g. it
disappears between `stat` and `open`). -/
def nodeGhost : Node := ⟨"/r/ghost.txt", NodeKind.file, true, 2, ".txt", false, "G"⟩

/-- Appending a readable file's entry to the `file_types` mapping, as one
loop iteration does (lines 87-90). -/
def extStep (m : List (String × List FileEntry)) (n : Node) : List (String × List FileEntry) :=
  appendAssoc m (extKey n.suffix) ⟨n.path, n.size⟩

/-- Appending a hashed file's path to the `duplicates` bucket of its
digest, as one loop iteration does (lines 96 and 99). -/
def dupStep (m : List (String × List String)) (n : Node) : List (String × List String) :=
  appendAssoc m n.content n.path

lemma step_stats_total_files (d : Bool) (a : Analyzer) (t : Nat)
    (fh : List (String × String)) (n : Node) :
    ((step d (a, t, fh) n).1).stats_total_files =
      a.stats_total_files + (if isReadableFile n then 1 else 0) := by
  rcases n with ⟨p, k, st, sz, sf, ho, c⟩
  cases k <;> cases st <;> cases d <;> cases ho <;>
    simp [step, isReadableFile, calculate_file_hash] <;> split <;> rfl

lemma step_stats_total_dirs (d : Bool) (a : Analyzer) (t : Nat)
    (fh : List (String × String)) (n : Node) :
    ((step d (a, t, fh) n).1).stats_total_dirs =
      a.stats_total_dirs + (if isDirNode n then 1 else 0) := by
  rcases n with ⟨p, k, st, sz, sf, ho, c⟩
  cases k <;> cases st <;> cases d <;> cases ho <;>
    simp [step, isDirNode, calculate_file_hash] <;> split <;> rfl

lemma step_stats_errors (d : Bool) (a : Analyzer) (t : Nat)
    (fh : List (String × String)) (n : Node) :
    ((step d (a, t, fh) n).1).stats_errors =
      a.stats_errors + (if isErrorFile n then 1 else 0) := by
  rcases n with ⟨p, k, st, sz, sf, ho, c⟩
  cases k <;> cases st <;> cases d <;> cases ho <;>
    simp [step, isErrorFile, calculate_file_hash] <;> split <;> rfl

lemma step_total_size (d : Bool) (a : Analyzer) (t : Nat)
    (fh : List (String × String)) (n : Node) :
    (step d (a, t, fh) n).2.1 = t + (if isReadableFile n then n.size else 0) := by
  rcases n with ⟨p, k, st, sz, sf, ho, c⟩
  cases k <;> cases st <;> cases d <;> cases ho <;>
    simp [step, isReadableFile, calculate_file_hash] <;> split <;> rfl

lemma step_file_types (d : Bool) (a : Analyzer) (t : Nat)
    (fh : List (String × String)) (n : Node) :
    ((step d (a, t, fh) n).1).file_types =
      if isReadableFile n then extStep a.file_types n else a.file_types := by
  rcases n with ⟨p, k, st, sz, sf, ho, c⟩
  cases k <;> cases st <;> cases d <;> cases ho <;>
    simp [step, isReadableFile, calculate_file_hash, extStep] <;> split <;> rfl

lemma step_duplicates_true (a : Analyzer) (t : Nat)
    (fh : List (String × String)) (n : Node) :
    ((step true (a, t, fh) n).1).duplicates =
      if isHashedFile n then dupStep a.duplicates n else a.duplicates := by
  rcases n with ⟨p, k, st, sz, sf, ho, c⟩
  cases k <;> cases st <;> cases ho <;>
    simp [step, isHashedFile, calculate_file_hash, dupStep] <;> split <;> rfl

lemma step_duplicates_false (a : Analyzer) (t : Nat)
    (fh : List (String × String)) (n : Node) :
    ((step false (a, t, fh) n).1).duplicates = a.duplicates := by
  rcases n with ⟨p, k, st, sz, sf, ho, c⟩
  cases k <;> cases st <;> cases ho <;>
    simp [step, calculate_file_hash]

lemma foldl_step_stats_total_files (d : Bool) :
    ∀ (l : List Node) (acc : Analyzer × Nat × List (String × String)),
    ((l.foldl (step d) acc).1).stats_total_files =
      acc.1.stats_total_files + (l.filter isReadableFile).length := by
  intro l
  induction l with
  | nil => intro acc; simp
  | cons n l ih =>
    intro acc
    obtain ⟨a, t, fh⟩ := acc
    rw [List.foldl_cons, ih, step_stats_total_files, List.filter_cons]
    cases h : isReadableFile n <;> simp [h] <;> omega

lemma foldl_step_stats_total_dirs (d : Bool) :
    ∀ (l : List Node) (acc : Analyzer × Nat × List (String × String)),
    ((l.foldl (step d) acc).1).stats_total_dirs =
      acc.1.stats_total_dirs + (l.filter isDirNode).length := by
  intro l
  induction l with
  | nil => intro acc; simp
  | cons n l ih =>
    intro acc
    obtain ⟨a, t, fh⟩ := acc
    rw [List.foldl_cons, ih, step_stats_total_dirs, List.filter_cons]
    cases h : isDirNode n <;> simp [h] <;> omega

lemma foldl_step_stats_errors (d : Bool) :
    ∀ (l : List Node) (acc : Analyzer × Nat × List (String × String)),
    ((l.foldl (step d) acc).1).stats_errors =
      acc.1.stats_errors + (l.filter isErrorFile).length := by
  intro l
  induction l with
  | nil => intro acc; simp
  | cons n l ih =>
    intro acc
    obtain ⟨a, t, fh⟩ := acc
    rw [List.foldl_cons, ih, step_stats_errors, List.filter_cons]
    cases h : isErrorFile n <;> simp [h] <;> omega

lemma foldl_step_total_size (d : Bool) :
    ∀ (l : List Node) (acc : Analyzer × Nat × List (String × String)),
    (l.foldl (step d) acc).2.1 =
      acc.2.1 + ((l.filter isReadableFile).map Node.size).sum := by
  intro l
  induction l with
  | nil => intro acc; simp
  | cons n l ih =>
    intro acc
    obtain ⟨a, t, fh⟩ := acc
    rw [List.foldl_cons, ih, List.filter_cons]
    cases h : isReadableFile n <;> simp [h, step_total_size] <;> omega

lemma foldl_step_file_types (d : Bool) :
    ∀ (l : List Node) (acc : Analyzer × Nat × List (String × String)),
    ((l.foldl (step d) acc).1).file_types =
      (l.filter isReadableFile).foldl extStep acc.1.file_types := by
  intro l
  induction l with
  | nil => intro acc; simp
  | cons n l ih =>
    intro acc
    obtain ⟨a, t, fh⟩ := acc
    rw [List.foldl_cons, ih, List.filter_cons]
    cases h : isReadableFile n <;> simp [h, step_file_types]

lemma foldl_step_duplicates_true :
    ∀ (l : List Node) (acc : Analyzer × Nat × List (String × String)),
    ((l.foldl (step true) acc).1).duplicates =
      (l.filter isHashedFile).foldl dupStep acc.1.duplicates := by
  intro l
  induction l with
  | nil => intro acc; simp
  | cons n l ih =>
    intro acc
    obtain ⟨a, t, fh⟩ := acc
    rw [List.foldl_cons, ih, List.filter_cons]
    cases h : isHashedFile n <;> simp [h, step_duplicates_true]

lemma foldl_step_duplicates_false :
    ∀ (l : List Node) (acc : Analyzer × Nat × List (String × String)),
    ((l.foldl (step false) acc).1).duplicates = acc.1.duplicates := by
  intro l
  induction l with
  | nil => intro acc; simp
  | cons n l ih =>
    intro acc
    obtain ⟨a, t, fh⟩ := acc
    rw [List.foldl_cons, ih, step_duplicates_false]

lemma lookupAssoc_appendAssoc_self {β : Type} (m : List (String × List β)) (k : String) (v : β) :
    lookupAssoc (appendAssoc m k v) k = lookupAssoc m k ++ [v] := by
  induction m with
  | nil => simp [appendAssoc, lookupAssoc]
  | cons p m ih =>
    obtain ⟨k', vs⟩ := p
    by_cases h : k = k' <;> simp [appendAssoc, lookupAssoc, h, ih]

lemma lookupAssoc_appendAssoc_ne {β : Type} (m : List (String × List β)) (k k' : String)
    (v : β) (hne : k' ≠ k) :
    lookupAssoc (appendAssoc m k v) k' = lookupAssoc m k' := by
  induction m with
  | nil => simp [appendAssoc, lookupAssoc, hne]
  | cons p m ih =>
    obtain ⟨k'', vs⟩ := p
    by_cases h1 : k = k'' <;> by_cases h2 : k' = k'' <;>
      simp [appendAssoc, lookupAssoc, h1, h2, ih] at *

lemma bucketSizes_appendAssoc (m : List (String × List FileEntry)) (k : String) (e : FileEntry) :
    bucketSizes (appendAssoc m k e) = bucketSizes m + e.size := by
  induction m with
  | nil => simp [appendAssoc, bucketSizes]
  | cons p m ih =>
    obtain ⟨k', vs⟩ := p
    by_cases h : k = k' <;> simp [appendAssoc, bucketSizes, h] at * <;> omega

lemma lookupAssoc_dupFold (h : String) :
    ∀ (l : List Node) (m : List (String × List String)),
    lookupAssoc (l.foldl dupStep m) h =
      lookupAssoc m h ++ ((l.filter (fun n => n.content == h)).map Node.path) := by
  intro l
  induction l with
  | nil => intro m; simp
  | cons n l ih =>
    intro m
    rw [List.foldl_cons, ih, List.filter_cons]
    by_cases hc : n.content = h
    · rw [if_pos (by simp [hc])]
      simp [dupStep, hc, lookupAssoc_appendAssoc_self]
    · rw [if_neg (by simp [hc])]
      rw [dupStep, lookupAssoc_appendAssoc_ne _ _ _ _ (fun he => hc he.symm)]

lemma bucketSizes_extFold :
    ∀ (l : List Node) (m : List (String × List FileEntry)),
    bucketSizes (l.foldl extStep m) = bucketSizes m + ((l.map Node.size).sum) := by
  intro l
  induction l with
  | nil => intro m; simp
  | cons n l ih =>
    intro m
    rw [List.foldl_cons, ih, extStep, bucketSizes_appendAssoc]
    simp
    omega

lemma lookupAssoc_extFold (e : String) :
    ∀ (l : List Node) (m : List (String × List FileEntry)),
    lookupAssoc (l.foldl extStep m) e =
      lookupAssoc m e ++
        ((l.filter (fun n => extKey n.suffix == e)).map (fun n => FileEntry.mk n.path n.size)) := by
  intro l
  induction l with
  | nil => intro m; simp
  | cons n l ih =>
    intro m
    rw [List.foldl_cons, ih, List.filter_cons]
    by_cases hc : extKey n.suffix = e
    · rw [if_pos (by simp [hc])]
      simp [extStep, hc, lookupAssoc_appendAssoc_self]
    · rw [if_neg (by simp [hc])]
      rw [extStep, lookupAssoc_appendAssoc_ne _ _ _ _ (fun he => hc he.symm)]

lemma analyze_stats_total_files (a : Analyzer) (fs : FileSystem) (d : Bool) :
    (analyze_directory a fs d).stats_total_files =
      a.stats_total_files + ((visited fs).filter isReadableFile).length := by
  rw [analyze_directory]
  exact foldl_step_stats_total_files d (visited fs) (a, 0, [])

lemma analyze_stats_total_dirs (a : Analyzer) (fs : FileSystem) (d : Bool) :
    (analyze_directory a fs d).stats_total_dirs =
      a.stats_total_dirs + ((visited fs).filter isDirNode).length := by
  rw [analyze_directory]
  exact foldl_step_stats_total_dirs d (visited fs) (a, 0, [])

lemma analyze_stats_errors (a : Analyzer) (fs : FileSystem) (d : Bool) :
    (analyze_directory a fs d).stats_errors =
      a.stats_errors + ((visited fs).filter isErrorFile).length := by
  rw [analyze_directory]
  exact foldl_step_stats_errors d (visited fs) (a, 0, [])

lemma analyze_stats_total_size (a : Analyzer) (fs : FileSystem) (d : Bool) :
    (analyze_directory a fs d).stats_total_size =
      (((visited fs).filter isReadableFile).map Node.size).sum := by
  rw [analyze_directory]
  have := foldl_step_total_size d (visited fs) (a, 0, [])
  simpa using this

lemma analyze_file_types (a : Analyzer) (fs : FileSystem) (d : Bool) :
    (analyze_directory a fs d).file_types =
      ((visited fs).filter isReadableFile).foldl extStep a.file_types := by
  rw [analyze_directory]
  exact foldl_step_file_types d (visited fs) (a, 0, [])

lemma analyze_duplicates_true (a : Analyzer) (fs : FileSystem) :
    (analyze_directory a fs true).duplicates =
      ((visited fs).filter isHashedFile).foldl dupStep a.duplicates := by
  rw [analyze_directory]
  exact foldl_step_duplicates_true (visited fs) (a, 0, [])

lemma analyze_duplicates_false (a : Analyzer) (fs : FileSystem) :
    (analyze_directory a fs false).duplicates = a.duplicates := by
  rw [analyze_directory]
  exact foldl_step_duplicates_false (visited fs) (a, 0, [])

lemma counted_node_split :
    ∀ (l : List Node),
    (l.filter isReadableFile).length + (l.filter isDirNode).length +
      (l.filter isErrorFile).length = (l.filter isCountedNode).length := by
  intro l
  induction l with
  | nil => simp
  | cons n l ih =>
    rcases n with ⟨p, k, st, sz, sf, ho, c⟩
    cases k <;> cases st <;>
      simp [List.filter_cons, isReadableFile, isDirNode, isErrorFile, isCountedNode] <;>
      omega

/-- C1: the code violates the claim.  Scanning a tree whose single file has
content shared by no other file, with duplicate detection enabled, leaves
that file in a `duplicates` bucket of size 1: `analyze_directory` appends
the first occurrence of every digest to its bucket (lines 97-99) and never
drops buckets with fewer than 2 members before returning. -/
theorem c1_singleton_bucket_retained :
    (analyze_directory initAnalyzer fsUnique true).duplicates = [("U", ["/r/u.txt"])] ∧
    (lookupAssoc (analyze_directory initAnalyzer fsUnique true).duplicates "U").length = 1 := by
  constructor <;> rfl

/-- C2: on the scenario tree {a.txt "X", b.txt "X", c.txt "Y"} the code
produces the claimed ".txt" extension bucket of 3 entries and total_size 3,
but its duplicates mapping has TWO buckets, not exactly one: the unique
file c.txt sits in a singleton bucket keyed by its digest, because the
first occurrence of every digest is appended and singleton buckets are
never filtered. -/
theorem c2_scenario_has_singleton_bucket :
    (analyze_directory initAnalyzer fsABC true).duplicates =
      [("X", ["/r/a.txt", "/r/b.txt"]), ("Y", ["/r/c.txt"])] ∧
    (analyze_directory initAnalyzer fsABC true).duplicates.length = 2 ∧
    (lookupAssoc (analyze_directory initAnalyzer fsABC true).file_types ".txt").length = 3 ∧
    (analyze_directory initAnalyzer fsABC true).stats_total_size = 3 := by
  refine ⟨rfl, rfl, by decide, rfl⟩

/-- C4 counterexample: a tree whose only node is neither a file nor a
directory (a socket, fifo or broken symlink) is dropped without being
counted: all three counters stay 0 although one node was visited. -/
theorem c4_other_node_uncounted :
    ¬ ((analyze_directory initAnalyzer fsOther true).stats_total_files +
        (analyze_directory initAnalyzer fsOther true).stats_total_dirs +
        (analyze_directory initAnalyzer fsOther true).stats_errors =
        fsOther.nodes.length) := by
  decide

/-- C5 counterexample: a second scan of the unchanged one-file tree through
the same analyzer instance does not reproduce the first report: the
instance counters and buckets accumulate across calls. -/
theorem c5_second_scan_differs :
    analyze_directory (analyze_directory initAnalyzer fsUnique true) fsUnique true ≠
      analyze_directory initAnalyzer fsUnique true := by
  decide

/-- C6 counterexample: the report returned by the first call is
`self.stats` itself, and a second `analyze_directory` call on the same
instance changes its contents: the file count the caller sees afterwards
differs from the one returned. -/
theorem c6_report_mutated_by_second_scan :
    (analyze_directory (analyze_directory initAnalyzer fsUnique true) fsUnique true).stats_total_files ≠
      (analyze_directory initAnalyzer fsUnique true).stats_total_files := by
  decide

/-- C7 counterexample: on a root that is not an existing directory the scan
does not fail and no failure is reported: `rglob` yields nothing, the loop
completes, and the returned report equals the one for a genuinely empty
directory — the error counter is 0. -/
theorem c7_invalid_root_scan_completes :
    analyze_directory initAnalyzer fsBadRoot true = analyze_directory initAnalyzer fsEmpty true ∧
    (analyze_directory initAnalyzer fsBadRoot true).stats_errors = 0 := by
  constructor <;> rfl

/-- C3: after a scan from a freshly constructed analyzer, the reported
`total_size` equals both the sum of the sizes recorded across all
`file_types` (ExtensionGroup) buckets and the sum of the stat-reported
sizes of all readable files of the tree. -/
theorem c3_total_size_invariant (fs : FileSystem) (d : Bool) (hroot : fs.rootIsDir = true) :
    (analyze_directory initAnalyzer fs d).stats_total_size =
      bucketSizes (analyze_directory initAnalyzer fs d).file_types ∧
    (analyze_directory initAnalyzer fs d).stats_total_size =
      ((fs.nodes.filter isReadableFile).map Node.size).sum := by
  have hv : visited fs = fs.nodes := by simp [visited, hroot]
  constructor
  · rw [analyze_stats_total_size, analyze_file_types, bucketSizes_extFold]
    simp [initAnalyzer, bucketSizes]
  · rw [analyze_stats_total_size, hv]

/-- C3 witness at the three-file scenario tree. -/
theorem c3_total_size_invariant_witness :
    fsABC.rootIsDir = true ∧
    ((analyze_directory initAnalyzer fsABC true).stats_total_size =
      bucketSizes (analyze_directory initAnalyzer fsABC true).file_types ∧
    (analyze_directory initAnalyzer fsABC true).stats_total_size =
      ((fsABC.nodes.filter isReadableFile).map Node.size).sum) :=
  ⟨rfl, c3_total_size_invariant fsABC true rfl⟩

/-- C4 amended: the three counters account for every visited node that is
a file or a directory — readable files in `total_files`, files whose
`stat()` fails in `errors`, directories in `total_dirs`, each exactly
once; nodes that are neither (sockets, fifos, broken symlinks) are
dropped without being counted anywhere. -/
theorem c4_counters_account_for_file_and_dir_nodes (fs : FileSystem) (d : Bool)
    (hroot : fs.rootIsDir = true) :
    (analyze_directory initAnalyzer fs d).stats_total_files +
      (analyze_directory initAnalyzer fs d).stats_total_dirs +
      (analyze_directory initAnalyzer fs d).stats_errors =
      (fs.nodes.filter isCountedNode).length := by
  have hv : visited fs = fs.nodes := by simp [visited, hroot]
  rw [analyze_stats_total_files, analyze_stats_total_dirs, analyze_stats_errors, hv]
  have := counted_node_split fs.nodes
  simp [initAnalyzer]
  omega

/-- C4 amended witness at the three-file scenario tree. -/
theorem c4_counters_account_witness :
    fsABC.rootIsDir = true ∧
    (analyze_directory initAnalyzer fsABC true).stats_total_files +
      (analyze_directory initAnalyzer fsABC true).stats_total_dirs +
      (analyze_directory initAnalyzer fsABC true).stats_errors =
      (fsABC.nodes.filter isCountedNode).length :=
  ⟨rfl, c4_counters_account_for_file_and_dir_nodes fsABC true rfl⟩

/-- C5 amended: two scans of an unchanged tree yield identical reports
only when each uses a fresh analyzer; through the same instance the
counters accumulate: the second report keeps the same `total_size` (it is
recomputed from a loop-local variable) but its file, directory and error
counters are exactly double those of the first report. -/
theorem c5_second_scan_accumulates (fs : FileSystem) (d : Bool) :
    (analyze_directory (analyze_directory initAnalyzer fs d) fs d).stats_total_size =
      (analyze_directory initAnalyzer fs d).stats_total_size ∧
    (analyze_directory (analyze_directory initAnalyzer fs d) fs d).stats_total_files =
      2 * (analyze_directory initAnalyzer fs d).stats_total_files ∧
    (analyze_directory (analyze_directory initAnalyzer fs d) fs d).stats_total_dirs =
      2 * (analyze_directory initAnalyzer fs d).stats_total_dirs ∧
    (analyze_directory (analyze_directory initAnalyzer fs d) fs d).stats_errors =
      2 * (analyze_directory initAnalyzer fs d).stats_errors := by
  refine ⟨?_, ?_, ?_, ?_⟩
  · rw [analyze_stats_total_size, analyze_stats_total_size]
  · rw [analyze_stats_total_files, analyze_stats_total_files]
    simp [initAnalyzer]
    omega
  · rw [analyze_stats_total_dirs, analyze_stats_total_dirs]
    simp [initAnalyzer]
    omega
  · rw [analyze_stats_errors, analyze_stats_errors]
    simp [initAnalyzer]
    omega

/-- C6 amended: the value returned by `analyze_directory` is the aliased
instance state `self.stats`, and a subsequent call on the same instance
mutates exactly it: whatever counter values a previously returned report
held, a further scan adds the new scan's counts on top of them (so a
previously returned report is unchanged only when no further scan is run
on that instance). -/
theorem c6_subsequent_scan_adds_to_returned_report (a : Analyzer) (fs : FileSystem) (d : Bool) :
    (analyze_directory a fs d).stats_total_files =
      a.stats_total_files + (analyze_directory initAnalyzer fs d).stats_total_files ∧
    (analyze_directory a fs d).stats_total_dirs =
      a.stats_total_dirs + (analyze_directory initAnalyzer fs d).stats_total_dirs ∧
    (analyze_directory a fs d).stats_errors =
      a.stats_errors + (analyze_directory initAnalyzer fs d).stats_errors := by
  refine ⟨?_, ?_, ?_⟩
  · rw [analyze_stats_total_files, analyze_stats_total_files]
    simp [initAnalyzer]
  · rw [analyze_stats_total_dirs, analyze_stats_total_dirs]
    simp [initAnalyzer]
  · rw [analyze_stats_errors, analyze_stats_errors]
    simp [initAnalyzer]

/-- C7 amended: when the root path is missing or not a directory,
`analyze_directory` does not fail and reports nothing: `rglob` yields no
entries, so the scan completes normally and returns exactly the report of
an empty directory (all counters zero); and no fatal error originates
within any scan — every per-entry failure only increments the error
counter. -/
theorem c7_invalid_root_yields_empty_report (fs : FileSystem) (d : Bool)
    (hroot : fs.rootIsDir = false) :
    analyze_directory initAnalyzer fs d = analyze_directory initAnalyzer fsEmpty d := by
  simp [analyze_directory, visited, hroot, fsEmpty]

/-- C7 amended witness at the concrete invalid-root input. -/
theorem c7_invalid_root_witness :
    fsBadRoot.rootIsDir = false ∧
    analyze_directory initAnalyzer fsBadRoot true = analyze_directory initAnalyzer fsEmpty true :=
  ⟨rfl, c7_invalid_root_yields_empty_report fsBadRoot true rfl⟩

/-- C8: a per-entry stat failure is recovered locally: compared with the
same traversal without the failing entry, the error counter is larger by
exactly one and the file count, total size, directory count, extension
buckets and duplicate buckets are unchanged — the failing entry
contributes nothing partial and the remaining entries are still
processed. -/
theorem c8_per_entry_error_recovered (pre suf : List Node) (n : Node) (d : Bool)
    (hkind : n.kind = NodeKind.file) (hstat : n.statOk = false) :
    (analyze_directory initAnalyzer ⟨true, pre ++ n :: suf⟩ d).stats_errors =
      (analyze_directory initAnalyzer ⟨true, pre ++ suf⟩ d).stats_errors + 1 ∧
    (analyze_directory initAnalyzer ⟨true, pre ++ n :: suf⟩ d).stats_total_files =
      (analyze_directory initAnalyzer ⟨true, pre ++ suf⟩ d).stats_total_files ∧
    (analyze_directory initAnalyzer ⟨true, pre ++ n :: suf⟩ d).stats_total_size =
      (analyze_directory initAnalyzer ⟨true, pre ++ suf⟩ d).stats_total_size ∧
    (analyze_directory initAnalyzer ⟨true, pre ++ n :: suf⟩ d).stats_total_dirs =
      (analyze_directory initAnalyzer ⟨true, pre ++ suf⟩ d).stats_total_dirs ∧
    (analyze_directory initAnalyzer ⟨true, pre ++ n :: suf⟩ d).file_types =
      (analyze_directory initAnalyzer ⟨true, pre ++ suf⟩ d).file_types ∧
    (analyze_directory initAnalyzer ⟨true, pre ++ n :: suf⟩ d).duplicates =
      (analyze_directory initAnalyzer ⟨true, pre ++ suf⟩ d).duplicates := by
  have hread : isReadableFile n = false := by simp [isReadableFile, hkind, hstat]
  have herr : isErrorFile n = true := by simp [isErrorFile, hkind, hstat]
  have hdir : isDirNode n = false := by simp [isDirNode, hkind]
  have hhash : isHashedFile n = false := by simp [isHashedFile, hkind, hstat]
  have hv1 : visited ⟨true, pre ++ n :: suf⟩ = pre ++ n :: suf := by simp [visited]
  have hv2 : visited ⟨true, pre ++ suf⟩ = pre ++ suf := by simp [visited]
  refine ⟨?_, ?_, ?_, ?_, ?_, ?_⟩
  · rw [analyze_stats_errors, analyze_stats_errors, hv1, hv2]
    simp [List.filter_append, List.filter_cons, herr]
    omega
  · rw [analyze_stats_total_files, analyze_stats_total_files, hv1, hv2]
    simp [List.filter_append, List.filter_cons, hread]
  · rw [analyze_stats_total_size, analyze_stats_total_size, hv1, hv2]
    simp [List.filter_append, List.filter_cons, hread]
  · rw [analyze_stats_total_dirs, analyze_stats_total_dirs, hv1, hv2]
    simp [List.filter_append, List.filter_cons, hdir]
  · rw [analyze_file_types, analyze_file_types, hv1, hv2]
    simp [List.filter_append, List.filter_cons, hread]
  · cases d
    · rw [analyze_duplicates_false, analyze_duplicates_false]
    · rw [analyze_duplicates_true, analyze_duplicates_true, hv1, hv2]
      simp [List.filter_append, List.filter_cons, hhash]

/-- C8 witness: a locked file between two readable files. -/
theorem c8_per_entry_error_recovered_witness :
    nodeBad.kind = NodeKind.file ∧ nodeBad.statOk = false ∧
    ((analyze_directory initAnalyzer ⟨true, [nodeA] ++ nodeBad :: [nodeC]⟩ true).stats_errors =
      (analyze_directory initAnalyzer ⟨true, [nodeA] ++ [nodeC]⟩ true).stats_errors + 1 ∧
    (analyze_directory initAnalyzer ⟨true, [nodeA] ++ nodeBad :: [nodeC]⟩ true).stats_total_files =
      (analyze_directory initAnalyzer ⟨true, [nodeA] ++ [nodeC]⟩ true).stats_total_files ∧
    (analyze_directory initAnalyzer ⟨true, [nodeA] ++ nodeBad :: [nodeC]⟩ true).stats_total_size =
      (analyze_directory initAnalyzer ⟨true, [nodeA] ++ [nodeC]⟩ true).stats_total_size ∧
    (analyze_directory initAnalyzer ⟨true, [nodeA] ++ nodeBad :: [nodeC]⟩ true).stats_total_dirs =
      (analyze_directory initAnalyzer ⟨true, [nodeA] ++ [nodeC]⟩ true).stats_total_dirs ∧
    (analyze_directory initAnalyzer ⟨true, [nodeA] ++ nodeBad :: [nodeC]⟩ true).file_types =
      (analyze_directory initAnalyzer ⟨true, [nodeA] ++ [nodeC]⟩ true).file_types ∧
    (analyze_directory initAnalyzer ⟨true, [nodeA] ++ nodeBad :: [nodeC]⟩ true).duplicates =
      (analyze_directory initAnalyzer ⟨true, [nodeA] ++ [nodeC]⟩ true).duplicates) :=
  ⟨rfl, rfl, c8_per_entry_error_recovered [nodeA] [nodeC] nodeBad true rfl rfl⟩

/-- C9: when hashing a readable file fails, the scan continues and the
file is excluded from duplicate detection — the duplicates mapping is
exactly the one of the traversal without that file — while the file is
still counted: the file count is one larger, the total size grows by its
size, and its entry is present in its extension bucket. -/
theorem c9_hash_failure_still_counted (pre suf : List Node) (n : Node)
    (hkind : n.kind = NodeKind.file) (hstat : n.statOk = true) (hhash : n.hashOk = false) :
    (analyze_directory initAnalyzer ⟨true, pre ++ n :: suf⟩ true).duplicates =
      (analyze_directory initAnalyzer ⟨true, pre ++ suf⟩ true).duplicates ∧
    (analyze_directory initAnalyzer ⟨true, pre ++ n :: suf⟩ true).stats_total_files =
      (analyze_directory initAnalyzer ⟨true, pre ++ suf⟩ true).stats_total_files + 1 ∧
    (analyze_directory initAnalyzer ⟨true, pre ++ n :: suf⟩ true).stats_total_size =
      (analyze_directory initAnalyzer ⟨true, pre ++ suf⟩ true).stats_total_size + n.size ∧
    FileEntry.mk n.path n.size ∈
      lookupAssoc (analyze_directory initAnalyzer ⟨true, pre ++ n :: suf⟩ true).file_types
        (extKey n.suffix) := by
  have hread : isReadableFile n = true := by simp [isReadableFile, hkind, hstat]
  have hhashed : isHashedFile n = false := by simp [isHashedFile, hkind, hstat, hhash]
  have hv1 : visited ⟨true, pre ++ n :: suf⟩ = pre ++ n :: suf := by simp [visited]
  have hv2 : visited ⟨true, pre ++ suf⟩ = pre ++ suf := by simp [visited]
  refine ⟨?_, ?_, ?_, ?_⟩
  · rw [analyze_duplicates_true, analyze_duplicates_true, hv1, hv2]
    simp [List.filter_append, List.filter_cons, hhashed]
  · rw [analyze_stats_total_files, analyze_stats_total_files, hv1, hv2]
    simp [List.filter_append, List.filter_cons, hread]
    omega
  · rw [analyze_stats_total_size, analyze_stats_total_size, hv1, hv2]
    simp [List.filter_append, List.filter_cons, hread]
    omega
  · rw [analyze_file_types, hv1]
    rw [lookupAssoc_extFold]
    refine List.mem_append.2 (Or.inr ?_)
    refine List.mem_map.2 ⟨n, ?_, rfl⟩
    refine List.mem_filter.2 ⟨List.mem_filter.2 ⟨by simp, hread⟩, by simp⟩

/-- C9 witness: a file that vanishes between `stat` and hashing, between
two readable files. -/
theorem c9_hash_failure_still_counted_witness :
    nodeGhost.kind = NodeKind.file ∧ nodeGhost.statOk = true ∧ nodeGhost.hashOk = false ∧
    ((analyze_directory initAnalyzer ⟨true, [nodeA] ++ nodeGhost :: [nodeC]⟩ true).duplicates =
      (analyze_directory initAnalyzer ⟨true, [nodeA] ++ [nodeC]⟩ true).duplicates ∧
    (analyze_directory initAnalyzer ⟨true, [nodeA] ++ nodeGhost :: [nodeC]⟩ true).stats_total_files =
      (analyze_directory initAnalyzer ⟨true, [nodeA] ++ [nodeC]⟩ true).stats_total_files + 1 ∧
    (analyze_directory initAnalyzer ⟨true, [nodeA] ++ nodeGhost :: [nodeC]⟩ true).stats_total_size =
      (analyze_directory initAnalyzer ⟨true, [nodeA] ++ [nodeC]⟩ true).stats_total_size +
        nodeGhost.size ∧
    FileEntry.mk nodeGhost.path nodeGhost.size ∈
      lookupAssoc
        (analyze_directory initAnalyzer ⟨true, [nodeA] ++ nodeGhost :: [nodeC]⟩ true).file_types
        (extKey nodeGhost.suffix)) :=
  ⟨rfl, rfl, rfl, c9_hash_failure_still_counted [nodeA] [nodeC] nodeGhost rfl rfl rfl⟩

/-- C10: with duplicate detection enabled, the bucket of any digest in the
final duplicates mapping is exactly the sequence of successfully hashed
files whose digest is that key, in visit order (the first-visited such
file first). -/
theorem c10_bucket_in_visit_order (fs : FileSystem) (hroot : fs.rootIsDir = true) (h : String) :
    lookupAssoc (analyze_directory initAnalyzer fs true).duplicates h =
      ((fs.nodes.filter isHashedFile).filter (fun n => n.content == h)).map Node.path := by
  have hv : visited fs = fs.nodes := by simp [visited, hroot]
  rw [analyze_duplicates_true, hv, lookupAssoc_dupFold]
  simp [initAnalyzer, lookupAssoc]

/-- C10 witness at the three-file scenario tree and the digest of "X". -/
theorem c10_bucket_in_visit_order_witness :
    fsABC.rootIsDir = true ∧
    lookupAssoc (analyze_directory initAnalyzer fsABC true).duplicates "X" =
      ((fsABC.nodes.filter isHashedFile).filter (fun n => n.content == "X")).map Node.path :=
  ⟨rfl, c10_bucket_in_visit_order fsABC rfl "X"⟩

end FileAnalyzer
